import Mathlib

/-!
Verification development for the ODL repository (operator algebra,
discretization layer and testing utilities).

The Python functions of `odl/util/testutils.py` are embedded shallowly:
numeric leaves are exact rationals (`ℚ`) with an explicit NaN marker,
NumPy arrays are `Val.arr` nodes carrying a dtype tag, Python lists are
`Val.seq` nodes, and a raised exception (or a non-boolean result) is
modelled as `none` in `Option Bool`.
-/

set_option autoImplicit false

-- The Batteries rational-number operations are `@[irreducible]`, which keeps
-- `decide` from evaluating concrete instances; restore the default status
-- locally so that closed facts about exact rationals are kernel-checkable.
attribute [local semireducible] Rat.add Rat.mul Rat.inv Rat.sub Rat.ofScientific

/-- NumPy dtype tags relevant to the testing utilities.  `obj` stands for
`np.dtype(object)`, the value `getattr(x, 'dtype', object)` also yields for
plain Python scalars. -/
inductive Dtype where
  | float16 | float32 | float64
  | complex64 | complex128
  | int8 | int16 | int32 | int64
  | uint8 | uint16 | uint32 | uint64
  | boolean
  | obj
deriving DecidableEq, Repr

/-- A Python numeric scalar: an exact rational together with a NaN marker
(`val` is irrelevant when `isNaN` is set). -/
structure PyScalar where
  val : ℚ
  isNaN : Bool
deriving DecidableEq, Repr

mutual
/-- A Python value as traversed by `all_almost_equal`:
`pyNone` is `None`, `scalar` a plain numeric scalar (no `dtype` attribute),
`arr` a NumPy array with its element dtype, `seq` a plain Python list. -/
inductive Val where
  | pyNone : Val
  | scalar : PyScalar → Val
  | arr : Dtype → ValList → Val
  | seq : ValList → Val
deriving DecidableEq, Repr

/-- The children of an `arr`/`seq` node. -/
inductive ValList where
  | nil : ValList
  | cons : Val → ValList → ValList
deriving DecidableEq, Repr
end

/-- Length of a `ValList` (Python `len`). -/
def vlen : ValList → ℕ
  | .nil => 0
  | .cons _ vs => 1 + vlen vs

mutual
/-- Size of a value tree (used only as a fuel bound for `np_allclose`). -/
def valSize : Val → ℕ
  | .pyNone => 1
  | .scalar _ => 1
  | .arr _ vs => 1 + valListSize vs
  | .seq vs => 1 + valListSize vs

/-- Size of a list of value trees. -/
def valListSize : ValList → ℕ
  | .nil => 1
  | .cons v vs => 1 + valSize v + valListSize vs
end

/-- Python `min` on two integers. -/
def pymin (a b : ℤ) : ℤ := if a ≤ b then a else b

/-- `10.0 ** n` on exact rationals. -/
def pow10 (n : ℤ) : ℚ := (10 : ℚ) ^ n

/-- `dtype_ndigits` from `odl/util/testutils.py` (lines 64-88): expected
number of correct digits for a dtype; `np.float16` gives 1, `np.float32`
and `np.complex64` give 3, everything else gives the caller-supplied
default, or 5 when none is given. -/
def dtype_ndigits (dtype : Dtype) (default : Option ℤ) : ℤ :=
  if dtype = .float16 then 1
  else if dtype = .float32 ∨ dtype = .complex64 then 3
  else default.getD 5

/-- `dtype_tol` from `odl/util/testutils.py` (lines 91-107):
`10 ** -dtype_ndigits(dtype, default)`. -/
def dtype_tol (dtype : Dtype) (default : Option ℤ) : ℚ :=
  pow10 (-(dtype_ndigits dtype default))

/-- `getattr(a, 'dtype', object)` as used by `_ndigits`: only NumPy arrays
carry a dtype attribute. -/
def dtypeAttr : Val → Dtype
  | .arr d _ => d
  | _ => .obj

/-- `_ndigits` from `odl/util/testutils.py` (lines 50-61): the minimum of
the two operands' `dtype_ndigits` with default `None`. -/
def ndigitsPair (a b : Val) : ℤ :=
  pymin (dtype_ndigits (dtypeAttr a) none) (dtype_ndigits (dtypeAttr b) none)

/-- `np.isclose(a, b, rtol=10**-nd, atol=10**-nd, equal_nan=True)` on scalar
operands: `|a - b| <= atol + rtol * |b|`, with two NaNs counting as close. -/
def np_isclose (a b : PyScalar) (nd : ℤ) : Bool :=
  if a.isNaN && b.isNaN then true
  else if a.isNaN || b.isNaN then false
  else decide (|a.val - b.val| ≤ pow10 (-nd) + pow10 (-nd) * |b.val|)

/-- Conjunction on `Option Bool` where `none` (a raised exception inside the
bulk NumPy computation) absorbs. -/
def optAnd : Option Bool → Option Bool → Option Bool
  | some a, some b => some (a && b)
  | _, _ => none

mutual
/-- Fuel-indexed core of `np.allclose(v1, v2, rtol=10**-nd, atol=10**-nd,
equal_nan=True)` on the `Val` tree: elementwise closeness with NumPy
broadcasting of scalars and of length-1 leading axes; `none` models the
`ValueError` NumPy raises on non-broadcastable shapes (and any other
non-numeric content).  The fuel only bounds the recursion depth; callers
supply more fuel than the combined size of the operands. -/
def npcloseFuel : ℕ → ℤ → Val → Val → Option Bool
  | 0, _, _, _ => none
  | f + 1, nd, v1, v2 =>
    match v1, v2 with
    | .scalar a, .scalar b => some (np_isclose a b nd)
    | .arr _ xs, .arr _ ys =>
      if vlen xs = vlen ys then npcloseZip f nd xs ys
      else if vlen xs = 1 then
        match xs with
        | .cons x _ => npcloseAllR f nd x ys
        | .nil => none
      else if vlen ys = 1 then
        match ys with
        | .cons y _ => npcloseAllL f nd xs y
        | .nil => none
      else none
    | .arr _ xs, .scalar b => npcloseAllL f nd xs (.scalar b)
    | .scalar a, .arr _ ys => npcloseAllR f nd (.scalar a) ys
    | _, _ => none

/-- Pairwise closeness of two equal-length axes. -/
def npcloseZip : ℕ → ℤ → ValList → ValList → Option Bool
  | 0, _, _, _ => none
  | _ + 1, _, .nil, .nil => some true
  | f + 1, nd, .cons x xs, .cons y ys =>
      optAnd (npcloseFuel f nd x y) (npcloseZip f nd xs ys)
  | _ + 1, _, _, _ => none

/-- Broadcast a fixed right operand against every element of the left axis. -/
def npcloseAllL : ℕ → ℤ → ValList → Val → Option Bool
  | 0, _, _, _ => none
  | _ + 1, _, .nil, _ => some true
  | f + 1, nd, .cons x xs, y =>
      optAnd (npcloseFuel f nd x y) (npcloseAllL f nd xs y)

/-- Broadcast a fixed left operand against every element of the right axis. -/
def npcloseAllR : ℕ → ℤ → Val → ValList → Option Bool
  | 0, _, _, _ => none
  | _ + 1, _, _, .nil => some true
  | f + 1, nd, x, .cons y ys =>
      optAnd (npcloseFuel f nd x y) (npcloseAllR f nd x ys)
end

/-- `np.allclose` with `rtol = atol = 10 ** -nd` and `equal_nan=True`, as
called by `all_almost_equal_array`; the fuel bound strictly dominates the
recursion depth, so it is never exhausted. -/
def np_allclose (nd : ℤ) (v1 v2 : Val) : Option Bool :=
  npcloseFuel (valSize v1 + valSize v2 + 1) nd v1 v2

mutual
/-- `all_almost_equal` from `odl/util/testutils.py` (lines 164-203).
The initial `iter1 is iter2 or iter1 == iter2` check (whose `ValueError`
on arrays is swallowed) is modelled by structural equality of the two
trees: identical objects are structurally equal, and within this value
grammar a truthy Python `==` on structurally different values can only
occur for numerically equal contents, on which every later branch also
returns `True`.  A raised exception (or a non-boolean NumPy return value)
is `none`. -/
def all_almost_equal (v1 v2 : Val) (nd : Option ℤ) : Option Bool :=
  if v1 = v2 then some true
  else
    match v1, v2 with
    | .pyNone, .pyNone => some true
    | .arr d1 xs, .arr d2 ys =>
      -- both operands have `__array__`: resolve a default ndigits and
      -- delegate to `all_almost_equal_array` (its body is inlined here;
      -- the standalone definition below restates it verbatim)
      let n := nd.getD (pymin (dtype_ndigits d1 none) (dtype_ndigits d2 none))
      if d1 = .obj ∨ d2 = .obj then
        if vlen xs ≠ vlen ys then some false
        else aaeList xs ys (some n)
      else np_allclose n (.arr d1 xs) (.arr d2 ys)
    | .arr _ xs, .seq ys => aaeList xs ys nd
    | .seq xs, .arr _ ys => aaeList xs ys nd
    | .seq xs, .seq ys => aaeList xs ys nd
    | .scalar a, .scalar b =>
      -- neither operand is iterable: `np.isclose` with the default ndigits
      -- of two dtype-less scalars (5) unless a value was passed down
      some (np_isclose a b (nd.getD 5))
    | _, _ => none

/-- The `zip_longest` loop of `all_almost_equal`: a sentinel (length
mismatch) yields `False`; otherwise the elements are compared recursively
with the same `ndigits` argument. -/
def aaeList (xs ys : ValList) (nd : Option ℤ) : Option Bool :=
  match xs, ys with
  | .nil, .nil => some true
  | .nil, .cons _ _ => some false
  | .cons _ _, .nil => some false
  | .cons x xs, .cons y ys =>
    match all_almost_equal x y nd with
    | none => none
    | some false => some false
    | some true => aaeList xs ys nd
end

/-- `all_almost_equal_array` from `odl/util/testutils.py` (lines 150-161):
if either dtype is the generic object kind, compare elementwise by
recursive `all_almost_equal` calls after a length check; otherwise use the
bulk `np.allclose`. -/
def all_almost_equal_array (v1 v2 : Val) (nd : ℤ) : Option Bool :=
  match v1, v2 with
  | .arr d1 xs, .arr d2 ys =>
    if d1 = .obj ∨ d2 = .obj then
      if vlen xs ≠ vlen ys then some false
      else aaeList xs ys (some nd)
    else np_allclose nd v1 v2
  | _, _ => none

/-! ## Error taxonomy (spec section 7)

`ShapeError` and `AliasingError` are `ValueError` kinds; the tests assert
the plain `ValueError`/`TypeError` classes. -/

/-- The exception kinds of the error-handling design. -/
inductive PyError where
  | typeError
  | valueError
  | shapeError
  | aliasingError
  | notImplementedError
deriving DecidableEq, Repr

/-- Whether an exception is (a kind of) `ValueError`. -/
def PyError.isValueErrorKind : PyError → Bool
  | .valueError => true
  | .shapeError => true
  | .aliasingError => true
  | _ => false

/-! ## Operator base contract (spec section 4.4)

The operator library `RL/operator/operator.py` itself is not among the
sources; only its tests are (`src/test/operator_test.py`,
`src/test/linear_operator_test.py`).  The base `apply`/`applyAdjoint`
wrappers and the combinator constructors below are therefore modelled from
the spec.  Euclidean spaces are identified by their dimension
(`EuclidianSpace(n)` from the tests); vectors carry their space and an
object identity used for the aliasing check. -/

/-- An element of `EuclidianSpace(space)`: `oid` models Python object
identity (`input is output`), `values` the backing buffer. -/
structure RnVec where
  space : ℕ
  oid : ℕ
  values : List ℚ
deriving DecidableEq, Repr

/-- An operator between Euclidean spaces, with user-supplied
`applyImpl`/`applyAdjointImpl` as in the test classes `MultiplyOp` and
`MultiplyAndSquareOp`. -/
structure Operator where
  domain : ℕ
  range : ℕ
  applyImpl : List ℚ → List ℚ
  applyAdjointImpl : List ℚ → List ℚ

/-- Modelled from the spec: `Operator.apply(input, output)` performs eager
type-checking before any numeric work — `TypeError` if `input`'s space is
not `domain` or `output`'s space is not `range` — and rejects aliased
input/output (`input is output`) with the `AliasingError` kind of
`ValueError`. -/
def Operator.apply (op : Operator) (inp outp : RnVec) : Except PyError (List ℚ) :=
  if inp.space ≠ op.domain ∨ outp.space ≠ op.range then .error .typeError
  else if inp.oid = outp.oid then .error .aliasingError
  else .ok (op.applyImpl inp.values)

/-- Modelled from the spec: `applyAdjoint` has the same contract with
domain and range swapped. -/
def Operator.applyAdjoint (op : Operator) (inp outp : RnVec) : Except PyError (List ℚ) :=
  if inp.space ≠ op.range ∨ outp.space ≠ op.domain then .error .typeError
  else if inp.oid = outp.oid then .error .aliasingError
  else .ok (op.applyAdjointImpl inp.values)

/-- Modelled from the spec: `OperatorSum(a, b)` is valid only if
`a.domain == b.domain` and `a.range == b.range`, else `TypeError` at
construction; its application is the elementwise sum of the two
applications. -/
def OperatorSum (a b : Operator) : Except PyError Operator :=
  if a.domain = b.domain ∧ a.range = b.range then
    .ok
      { domain := a.domain
        range := a.range
        applyImpl := fun x => List.zipWith (fun u v => u + v) (a.applyImpl x) (b.applyImpl x)
        applyAdjointImpl := fun y =>
          List.zipWith (fun u v => u + v) (a.applyAdjointImpl y) (b.applyAdjointImpl y) }
  else .error .typeError

/-- Modelled from the spec: `OperatorComposition(a, b)` is valid only if
`a.domain == b.range`, else `TypeError` at construction;
`apply(x) = a.apply(b.apply(x))`, and for linear operands the adjoint is
the reversed composition of the adjoints. -/
def OperatorComposition (a b : Operator) : Except PyError Operator :=
  if a.domain = b.range then
    .ok
      { domain := b.domain
        range := a.range
        applyImpl := fun x => a.applyImpl (b.applyImpl x)
        applyAdjointImpl := fun y => b.applyAdjointImpl (a.applyAdjointImpl y) }
  else .error .typeError

/-! ## Linear operators over exact Euclidean spaces (claim about adjoints)

`MultiplyOp` is taken from `src/test/linear_operator_test.py` (lines
35-56): forward application is `np.dot(matrix, rhs)` and adjoint
application is `np.dot(matrix.T, rhs)`.  Matrices are exact rational
matrices with `Fin`-indexed dimensions, so composability
(`A.domain == B.range`) is enforced by the shared index type. -/

/-- A linear operator from `ℚ^n` to `ℚ^m` given by its forward and adjoint
applications. -/
structure LinOp (n m : ℕ) where
  app : (Fin n → ℚ) → (Fin m → ℚ)
  adjApp : (Fin m → ℚ) → (Fin n → ℚ)

/-- `MultiplyOp` from `src/test/linear_operator_test.py`:
`applyImpl = np.dot(matrix, rhs)`, `applyAdjointImpl = np.dot(matrix.T, rhs)`. -/
def MultiplyOp {m n : ℕ} (A : Matrix (Fin m) (Fin n) ℚ) : LinOp n m where
  app := fun rhs => A.mulVec rhs
  adjApp := fun rhs => A.transpose.mulVec rhs

/-- Modelled from the spec: `LinearOperatorComposition(a, b)` applies `b`
first and `a` second, and its adjoint is `Composition(b.adjoint,
a.adjoint)` (order reversed), i.e. its adjoint application applies
`a.adjoint` first and `b.adjoint` second. -/
def LinearOperatorComposition {n m p : ℕ} (a : LinOp n m) (b : LinOp p n) : LinOp p m where
  app := fun x => a.app (b.app x)
  adjApp := fun y => b.adjApp (a.adjApp y)

/-! ## Discretization bridge (spec section 4.3)

The `DiscreteL2` implementation is not among the sources; only its test
(`src/test/discr/l2_discr_test.py`) is.  Element construction from a 2-D
sample array and `asarray` are modelled from the spec: a correctly shaped
array flattens per the configured ordering (`ShapeError` otherwise), and
`asarray` returns an array whose memory layout flag matches the
ordering. -/

/-- Flattening ordering of a discretized space: row-major (`'C'`) or
column-major (`'F'`). -/
inductive ArrOrder where
  | C
  | F
deriving DecidableEq, Repr

/-- Column `j` of a 2-D sample array. -/
def colOf (data : List (List ℚ)) (j : ℕ) : List ℚ :=
  data.map (fun row => row.getD j 0)

/-- Transpose of a rectangular 2-D sample array with `cols` columns. -/
def transposeRect (cols : ℕ) (data : List (List ℚ)) : List (List ℚ) :=
  (List.range cols).map (colOf data)

/-- Modelled from the spec: `DiscreteL2.element(data)` for a 2-D sample
array on a grid of the given shape — a correctly shaped array is flattened
into the backing buffer per the configured ordering (row-major
concatenates rows, column-major concatenates columns); any other shape
fails with `ShapeError`. -/
def DiscreteL2element (shape : ℕ × ℕ) (ord : ArrOrder) (data : List (List ℚ)) :
    Except PyError (List ℚ) :=
  if data.length = shape.1 ∧ ∀ row ∈ data, row.length = shape.2 then
    .ok
      (match ord with
        | .C => data.flatten
        | .F => (transposeRect shape.2 data).flatten)
  else .error .shapeError

/-- A NumPy array as returned by `asarray`: the flat memory buffer, the
logical shape, and the contiguity flag (`C_CONTIGUOUS`/`F_CONTIGUOUS`)
describing how the buffer is addressed. -/
structure NdArray where
  shape : ℕ × ℕ
  layout : ArrOrder
  buffer : List ℚ
deriving DecidableEq, Repr

/-- Modelled from the spec: `asarray()` reconstitutes the multi-dimensional
sample array from the flat buffer per the configured ordering; the returned
array's memory layout matches the configured ordering exactly (the buffer
is the backing `ntuple` itself, which is stored in that ordering). -/
def DiscreteL2asarray (shape : ℕ × ℕ) (ord : ArrOrder) (ntuple : List ℚ) : NdArray :=
  { shape := shape, layout := ord, buffer := ntuple }

/-- The logical entry `(i, j)` of an `NdArray`, addressed in memory
according to its contiguity flag: `i * cols + j` for a row-major buffer,
`j * rows + i` for a column-major buffer. -/
def NdArray.entry (a : NdArray) (i j : ℕ) : ℚ :=
  match a.layout with
  | .C => a.buffer.getD (i * a.shape.2 + j) 0
  | .F => a.buffer.getD (j * a.shape.1 + i) 0

/-- The logical 2-D view of an `NdArray` (row `i`, column `j`). -/
def NdArray.logical (a : NdArray) : List (List ℚ) :=
  (List.range a.shape.1).map fun i => (List.range a.shape.2).map fun j => a.entry i j

/-! ## Test-data generation (`noise_array`, spec section 6)

`noise_array` is in the sources (`odl/util/testutils.py`, lines 295-370).
The NumPy random primitives are external; they are modelled by their
documented contracts: `np.random.randint(low, high)` yields
`low + (r mod (high - low))` for an arbitrary entropy value `r`, hence a
value in `[low, high)`; `np.random.randn` is an unconstrained rational
draw; the complex draw `(randn + 1j*randn)/sqrt(2)` is an unconstrained
pair (the irrational scaling is absorbed into the oracle). -/

/-- `np.random.randint(low, high)` for `low < high`: an arbitrary entropy
value reduced into `[low, high)`. -/
def np_randint (low high : ℤ) (r : ℕ) : ℤ :=
  low + (r : ℤ) % (high - low)

/-- One generated array entry. -/
inductive NoiseEntry where
  | intEntry : ℤ → NoiseEntry
  | boolEntry : Bool → NoiseEntry
  | floatEntry : ℚ → NoiseEntry
  | complexEntry : ℚ → ℚ → NoiseEntry
deriving DecidableEq, Repr

/-- Is the dtype a NumPy unsigned-integer dtype (`np.unsignedinteger`)? -/
def Dtype.isUnsignedInt : Dtype → Bool
  | .uint8 | .uint16 | .uint32 | .uint64 => true
  | _ => false

/-- Is the dtype a NumPy signed-integer dtype (`np.signedinteger`)? -/
def Dtype.isSignedInt : Dtype → Bool
  | .int8 | .int16 | .int32 | .int64 => true
  | _ => false

/-- Is the dtype a NumPy real floating dtype (`np.floating`)? -/
def Dtype.isFloating : Dtype → Bool
  | .float16 | .float32 | .float64 => true
  | _ => false

/-- Is the dtype a NumPy complex floating dtype (`np.complexfloating`)? -/
def Dtype.isComplexFloating : Dtype → Bool
  | .complex64 | .complex128 => true
  | _ => false

/-- A non-product space as seen by `noise_array`: an element dtype and a
flat element count. -/
structure SimpleSpace where
  dtype : Dtype
  size : ℕ

/-- `noise_array` from `odl/util/testutils.py` (lines 353-370), for
non-product spaces: `randint(0, 2)` booleans for boolean dtypes, uniform
integers in `[0, 10)` for unsigned dtypes, in `[-10, 10)` for signed
dtypes, standard-normal draws for floating dtypes, scaled pairs of draws
for complex dtypes, and `ValueError` for any other dtype.  `ri` is the
entropy stream of the integer generator, `rn` and `crn` the oracles for
the real and complex normal draws. -/
def noise_array (space : SimpleSpace) (ri : ℕ → ℕ) (rn : ℕ → ℚ) (crn : ℕ → ℚ × ℚ) :
    Except PyError (List NoiseEntry) :=
  if space.dtype = .boolean then
    .ok ((List.range space.size).map fun i => .boolEntry (np_randint 0 2 (ri i) = 1))
  else if space.dtype.isUnsignedInt then
    .ok ((List.range space.size).map fun i => .intEntry (np_randint 0 10 (ri i)))
  else if space.dtype.isSignedInt then
    .ok ((List.range space.size).map fun i => .intEntry (np_randint (-10) 10 (ri i)))
  else if space.dtype.isFloating then
    .ok ((List.range space.size).map fun i => .floatEntry (rn i))
  else if space.dtype.isComplexFloating then
    .ok ((List.range space.size).map fun i => .complexEntry (crn i).1 (crn i).2)
  else .error .valueError

deriving instance DecidableEq for Except

/-! ## Claim theorems -/

/-- C10: `all_almost_equal` is reflexive — for every input, including
values containing NaN entries or ragged object-dtype structures, and for
every `ndigits` argument, comparing a value with itself returns `True`,
because identical objects are accepted by the initial
`iter1 is iter2 or iter1 == iter2` short-circuit before any numeric or
elementwise comparison is attempted. -/
theorem C10_all_almost_equal_reflexive (v : Val) (nd : Option ℤ) :
    all_almost_equal v v nd = some true := by
  rw [all_almost_equal.eq_def, if_pos rfl]

/-- A single-element `np.float32` array leaf. -/
def f32leaf (q : ℚ) : Val := .arr .float32 (.cons (.scalar ⟨q, false⟩) .nil)

/-- C1, counterexample: under the dtype-derived default tolerance for
single-precision leaves (`1e-3`, used as both `atol` and `rtol`), the
values `0` and `1.5e-3` differ by `1.5e-3` yet do NOT compare as almost
equal, because `1.5e-3 > 1e-3 + 1e-3 * |1.5e-3|`; the claim's "two values
differing by 1.5e-3 compare as almost equal" fails at small magnitudes. -/
theorem C1_small_magnitude_counterexample :
    all_almost_equal (f32leaf 0) (f32leaf (3 / 2000)) none = some false := by decide

/-- C1 (amended): the default tolerance is derived from dtype in three
tiers — `1e-1` for `np.float16`, `1e-3` for `np.float32`/`np.complex64`,
and `1e-5` for every other dtype unless a caller-supplied default
overrides it; the tolerance acts both absolutely and relatively
(`atol = rtol`), so for single-precision leaves at unit magnitude a
difference of `1.5e-3` compares almost equal while a difference of `5e-2`
does not (at magnitudes below `1/2` a `1.5e-3` difference can fail). -/
theorem C1_default_tolerance_tiers :
    dtype_tol .float16 none = 1 / 10
    ∧ dtype_tol .float32 none = 1 / 1000
    ∧ dtype_tol .complex64 none = 1 / 1000
    ∧ (∀ dt : Dtype, dt ≠ .float16 → dt ≠ .float32 → dt ≠ .complex64 →
        dtype_tol dt none = 1 / 100000 ∧ ∀ d : ℤ, dtype_tol dt (some d) = pow10 (-d))
    ∧ all_almost_equal (f32leaf 1) (f32leaf (1 + 3 / 2000)) none = some true
    ∧ all_almost_equal (f32leaf 1) (f32leaf (1 + 1 / 20)) none = some false := by
  refine ⟨by decide, by decide, by decide, ?_, by decide, by decide⟩
  intro dt h1 h2 h3
  have hne : ¬(dt = Dtype.float32 ∨ dt = Dtype.complex64) := by simp [h2, h3]
  refine ⟨?_, fun d => ?_⟩ <;>
    simp only [dtype_tol, dtype_ndigits, if_neg h1, if_neg hne, Option.getD_none,
      Option.getD_some]
  decide

/-- C1 witness: the "others" tier instantiated at `np.float64`. -/
theorem C1_default_tolerance_tiers_witness :
    dtype_tol .float64 none = 1 / 100000 ∧ dtype_tol .float64 (some 2) = pow10 (-2) := by
  have h := C1_default_tolerance_tiers.2.2.2.1 .float64 (by decide) (by decide) (by decide)
  exact ⟨h.1, h.2 2⟩

/-- C6, counterexample: on the square `(2, 2)` grid of the claim, building
an element from the TRANSPOSED array `[[1,3],[2,4]]` does not raise
`ShapeError` — a transposed square array is still correctly shaped and is
accepted (flattening, row-major, to `[1,3,2,4]`). -/
theorem C6_transposed_square_counterexample :
    DiscreteL2element (2, 2) .C (transposeRect 2 [[1, 2], [3, 4]]) = .ok [1, 3, 2, 4] := by
  decide

/-- C6 (amended): on the unit square discretized to grid shape `(2,2)`,
the element built from `[[1,2],[3,4]]` has flat buffer `[1,2,3,4]` under
row-major ordering and `[1,3,2,4]` under column-major ordering; an array
whose shape does not match the grid — e.g. a `(2,3)`-shaped or
`(2,2)`-shaped array on a `(3,2)` grid, such as the transpose of a
non-square correct array — raises `ShapeError` (a `ValueError` kind),
while a transposed SQUARE array is still correctly shaped and accepted. -/
theorem C6_element_2d_ordering :
    DiscreteL2element (2, 2) .C [[1, 2], [3, 4]] = .ok [1, 2, 3, 4]
    ∧ DiscreteL2element (2, 2) .F [[1, 2], [3, 4]] = .ok [1, 3, 2, 4]
    ∧ DiscreteL2element (3, 2) .C [[1, 2], [3, 4], [5, 6]] = .ok [1, 2, 3, 4, 5, 6]
    ∧ DiscreteL2element (3, 2) .C [[1, 2, 3], [4, 5, 6]] = .error .shapeError
    ∧ DiscreteL2element (3, 2) .C [[1, 2], [3, 4]] = .error .shapeError
    ∧ PyError.isValueErrorKind .shapeError = true := by decide

/-- Embed a list of rationals as a `ValList` of plain scalar leaves. -/
def scalarList : List ℚ → ValList
  | [] => .nil
  | q :: qs => .cons (.scalar ⟨q, false⟩) (scalarList qs)

/-- `scalarList` preserves lengths. -/
theorem vlen_scalarList : ∀ xs : List ℚ, vlen (scalarList xs) = xs.length := by
  intro xs
  induction xs with
  | nil => rfl
  | cons x xs ih => rw [scalarList, vlen, ih, List.length_cons]; omega

/-- On two scalar leaves, `all_almost_equal` returns the `==` short-circuit
or the `np.isclose` verdict with the dtype-less default of 5 digits. -/
theorem aae_scalar (a b : PyScalar) (nd : Option ℤ) :
    all_almost_equal (.scalar a) (.scalar b) nd
      = some (if a = b then true else np_isclose a b (nd.getD 5)) := by
  by_cases h : a = b
  · subst h
    rw [all_almost_equal.eq_def]
    simp
  · have h2 : Val.scalar a ≠ Val.scalar b := by simpa using h
    rw [all_almost_equal.eq_def, if_neg h2, if_neg h]

/-- Two iterated sequences of numeric scalar leaves with differing lengths
always compare as `False` (the `zip_longest` sentinel, or an earlier
elementwise `False`). -/
theorem aaeList_scalar_length_ne :
    ∀ (xs ys : List ℚ) (nd : Option ℤ), xs.length ≠ ys.length →
      aaeList (scalarList xs) (scalarList ys) nd = some false := by
  intro xs
  induction xs with
  | nil =>
    intro ys nd h
    cases ys with
    | nil => simp at h
    | cons y ys => rfl
  | cons x xs ih =>
    intro ys nd h
    cases ys with
    | nil => rfl
    | cons y ys =>
      have h2 : xs.length ≠ ys.length := by simpa using h
      rw [scalarList, scalarList]
      simp only [aaeList, aae_scalar]
      cases hb : (if (⟨x, false⟩ : PyScalar) = ⟨y, false⟩ then true
          else np_isclose ⟨x, false⟩ ⟨y, false⟩ (nd.getD 5)) with
      | false => rfl
      | true => exact ih ys nd h2

/-- C2, counterexample: two NumPy float arrays of differing lengths need
NOT compare as `False` — the bulk `np.allclose` broadcasts a length-1
array, so `[5.0]` and `[5.0, 5.0]` compare as almost equal. -/
theorem C2_broadcast_counterexample :
    vlen (scalarList [5]) ≠ vlen (scalarList [5, 5])
    ∧ all_almost_equal (.arr .float64 (scalarList [5]))
        (.arr .float64 (scalarList [5, 5])) none = some true := by decide

/-- C2 (amended): `all_almost_equal` returns `True` when comparing two NaN
leaf values and when both arguments are `None`; two iterated (non-array)
sequences of numeric scalars with differing lengths compare as `False` at
any recursion depth; for NumPy array leaves, however, the comparison
delegates to the bulk `np.allclose`, which broadcasts a length-1 array
against a longer one (possibly returning `True`) and raises `ValueError`
on other length mismatches. -/
theorem C2_nan_none_length :
    (∀ (q1 q2 : ℚ) (nd : Option ℤ),
        all_almost_equal (.scalar ⟨q1, true⟩) (.scalar ⟨q2, true⟩) nd = some true)
    ∧ (∀ nd : Option ℤ, all_almost_equal .pyNone .pyNone nd = some true)
    ∧ (∀ (xs ys : List ℚ) (nd : Option ℤ), xs.length ≠ ys.length →
        all_almost_equal (.seq (scalarList xs)) (.seq (scalarList ys)) nd = some false)
    ∧ all_almost_equal (.seq (.cons (.seq (scalarList [1, 2])) .nil))
        (.seq (.cons (.seq (scalarList [1, 2, 3])) .nil)) none = some false := by
  refine ⟨?_, ?_, ?_, by decide⟩
  · intro q1 q2 nd
    rw [aae_scalar]
    by_cases h : (⟨q1, true⟩ : PyScalar) = ⟨q2, true⟩
    · rw [if_pos h]
    · rw [if_neg h]; rfl
  · intro nd
    rw [all_almost_equal.eq_def, if_pos rfl]
  · intro xs ys nd h
    have hne : Val.seq (scalarList xs) ≠ Val.seq (scalarList ys) := by
      intro hc
      apply h
      have h3 : scalarList xs = scalarList ys := by injection hc
      have h4 := congrArg vlen h3
      rwa [vlen_scalarList, vlen_scalarList] at h4
    rw [all_almost_equal.eq_def, if_neg hne]
    exact aaeList_scalar_length_ne xs ys nd h

/-- An object-dtype ragged array: a scalar next to a float array. -/
def raggedA : Val :=
  .arr .obj (.cons (.scalar ⟨1, false⟩) (.cons (.arr .float64 (scalarList [2, 3])) .nil))

/-- A slightly perturbed copy of `raggedA`. -/
def raggedB : Val :=
  .arr .obj
    (.cons (.scalar ⟨1, false⟩) (.cons (.arr .float64 (scalarList [2 + 1 / 1000000, 3])) .nil))

/-- C8: when either array leaf has the generic object dtype,
`all_almost_equal_array` compares elementwise by recursive
`all_almost_equal` calls — `False` on a length mismatch — instead of the
bulk numeric comparison, which is used exactly when neither dtype is the
object kind; the ragged object-dtype pair demonstrates the recursive path
end to end. -/
theorem C8_object_dtype_elementwise :
    (∀ (d1 d2 : Dtype) (xs ys : ValList) (nd : ℤ),
      ((d1 = .obj ∨ d2 = .obj) →
          (vlen xs ≠ vlen ys →
            all_almost_equal_array (.arr d1 xs) (.arr d2 ys) nd = some false)
        ∧ (vlen xs = vlen ys →
            all_almost_equal_array (.arr d1 xs) (.arr d2 ys) nd = aaeList xs ys (some nd)))
      ∧ (d1 ≠ .obj → d2 ≠ .obj →
          all_almost_equal_array (.arr d1 xs) (.arr d2 ys) nd
            = np_allclose nd (.arr d1 xs) (.arr d2 ys)))
    ∧ all_almost_equal raggedA raggedB none = some true := by
  refine ⟨?_, by decide⟩
  intro d1 d2 xs ys nd
  constructor
  · intro hobj
    constructor
    · intro hlen
      simp only [all_almost_equal_array, if_pos hobj, if_pos hlen]
    · intro hlen
      simp only [all_almost_equal_array, if_pos hobj, if_neg (not_not_intro hlen)]
  · intro h1 h2
    have hno : ¬(d1 = Dtype.obj ∨ d2 = Dtype.obj) := by simp [h1, h2]
    simp only [all_almost_equal_array, if_neg hno]

/-- C8 witness: object dtype with a length mismatch yields `False`. -/
theorem C8_object_dtype_elementwise_witness :
    all_almost_equal_array (.arr .obj (.cons .pyNone .nil)) (.arr .float64 .nil) 3
      = some false :=
  ((C8_object_dtype_elementwise.1 .obj .float64 (.cons .pyNone .nil) .nil 3).1
    (Or.inl rfl)).1 (by decide)

/-- `np.random.randint(low, high)` lands in `[low, high)`. -/
theorem np_randint_mem (low high : ℤ) (h : low < high) (r : ℕ) :
    low ≤ np_randint low high r ∧ np_randint low high r < high := by
  unfold np_randint
  have h1 : 0 ≤ (r : ℤ) % (high - low) := Int.emod_nonneg _ (by omega)
  have h2 : (r : ℤ) % (high - low) < high - low := Int.emod_lt_of_pos _ (by omega)
  omega

/-- C9: every entry generated by `noise_array` for a signed-integer dtype
lies in `[-10, 10)`, every entry for an unsigned-integer dtype lies in
`[0, 10)`, and every entry for the boolean dtype is a boolean. -/
theorem C9_noise_array_ranges :
    ∀ (space : SimpleSpace) (ri : ℕ → ℕ) (rn : ℕ → ℚ) (crn : ℕ → ℚ × ℚ)
      (out : List NoiseEntry),
      noise_array space ri rn crn = .ok out →
        (space.dtype.isSignedInt = true →
          ∀ e ∈ out, ∃ z : ℤ, e = .intEntry z ∧ -10 ≤ z ∧ z < 10)
        ∧ (space.dtype.isUnsignedInt = true →
          ∀ e ∈ out, ∃ z : ℤ, e = .intEntry z ∧ 0 ≤ z ∧ z < 10)
        ∧ (space.dtype = .boolean → ∀ e ∈ out, ∃ b : Bool, e = .boolEntry b) := by
  intro space ri rn crn out hok
  refine ⟨?_, ?_, ?_⟩
  · intro hs e he
    have hb : space.dtype ≠ .boolean := by
      intro hc; rw [hc] at hs; exact absurd hs (by decide)
    have hu : ¬(space.dtype.isUnsignedInt = true) := by
      cases hdt : space.dtype <;> rw [hdt] at hs <;> first | decide | exact absurd hs (by decide)
    rw [noise_array, if_neg hb, if_neg hu, if_pos hs] at hok
    injection hok with hout
    subst hout
    simp only [List.mem_map, List.mem_range] at he
    obtain ⟨i, _, rfl⟩ := he
    exact ⟨_, rfl, np_randint_mem (-10) 10 (by omega) (ri i)⟩
  · intro hs e he
    have hb : space.dtype ≠ .boolean := by
      intro hc; rw [hc] at hs; exact absurd hs (by decide)
    rw [noise_array, if_neg hb, if_pos hs] at hok
    injection hok with hout
    subst hout
    simp only [List.mem_map, List.mem_range] at he
    obtain ⟨i, _, rfl⟩ := he
    exact ⟨_, rfl, np_randint_mem 0 10 (by omega) (ri i)⟩
  · intro hbool e he
    rw [noise_array, if_pos hbool] at hok
    injection hok with hout
    subst hout
    simp only [List.mem_map, List.mem_range] at he
    obtain ⟨i, _, rfl⟩ := he
    exact ⟨_, rfl⟩

/-- C9 witness: a concrete signed-integer draw lies in `[-10, 10)`. -/
theorem C9_noise_array_ranges_witness :
    ∃ z : ℤ, NoiseEntry.intEntry (np_randint (-10) 10 7) = .intEntry z ∧ -10 ≤ z ∧ z < 10 :=
  (C9_noise_array_ranges ⟨.int32, 1⟩ (fun _ => 7) (fun _ => 0) (fun _ => (0, 0))
      ((List.range 1).map fun _ => .intEntry (np_randint (-10) 10 7)) rfl).1 rfl
    (.intEntry (np_randint (-10) 10 7)) (by decide)

/-- C3: for composable linear matrix operators (the shared inner dimension
enforces `A.domain = B.range`), the adjoint of the composition applies
first `A`'s adjoint and then `B`'s adjoint — and this reversed-order
composition is the true adjoint of the composition, since the forward map
is multiplication by `A * B` and `(A * B)ᵀ = Bᵀ * Aᵀ`. -/
theorem C3_composition_adjoint_reversed :
    ∀ (m n p : ℕ) (A : Matrix (Fin m) (Fin n) ℚ) (B : Matrix (Fin n) (Fin p) ℚ)
      (y : Fin m → ℚ),
      (LinearOperatorComposition (MultiplyOp A) (MultiplyOp B)).adjApp y
        = (MultiplyOp B).adjApp ((MultiplyOp A).adjApp y)
      ∧ (LinearOperatorComposition (MultiplyOp A) (MultiplyOp B)).adjApp y
        = (A * B).transpose.mulVec y
      ∧ (LinearOperatorComposition (MultiplyOp A) (MultiplyOp B)).app
        = (A * B).mulVec := by
  intro m n p A B y
  refine ⟨rfl, ?_, ?_⟩
  · show B.transpose.mulVec (A.transpose.mulVec y) = (A * B).transpose.mulVec y
    rw [Matrix.transpose_mul, Matrix.mulVec_mulVec]
  · funext x
    show A.mulVec (B.mulVec x) = (A * B).mulVec x
    rw [Matrix.mulVec_mulVec]

/-- C4: `apply` (and `applyAdjoint`) raises `TypeError` before any numeric
work when the input vector's space is not the operator's domain or the
output vector's space is not its range; it raises the `AliasingError` kind
of `ValueError` when input and output are the same vector; and a call with
correctly typed, non-aliased arguments succeeds. -/
theorem C4_apply_typecheck_alias :
    ∀ (op : Operator) (inp outp : RnVec),
      ((inp.space ≠ op.domain ∨ outp.space ≠ op.range) →
        op.apply inp outp = .error .typeError)
      ∧ (inp.space = op.domain → outp.space = op.range → inp.oid = outp.oid →
        op.apply inp outp = .error .aliasingError
          ∧ PyError.isValueErrorKind .aliasingError = true)
      ∧ (inp.space = op.domain → outp.space = op.range → inp.oid ≠ outp.oid →
        op.apply inp outp = .ok (op.applyImpl inp.values))
      ∧ ((inp.space ≠ op.range ∨ outp.space ≠ op.domain) →
        op.applyAdjoint inp outp = .error .typeError)
      ∧ (inp.space = op.range → outp.space = op.domain → inp.oid = outp.oid →
        op.applyAdjoint inp outp = .error .aliasingError)
      ∧ (inp.space = op.range → outp.space = op.domain → inp.oid ≠ outp.oid →
        op.applyAdjoint inp outp = .ok (op.applyAdjointImpl inp.values)) := by
  intro op inp outp
  refine ⟨?_, ?_, ?_, ?_, ?_, ?_⟩
  · intro h
    simp only [Operator.apply, if_pos h]
  · intro h1 h2 h3
    have hno : ¬(inp.space ≠ op.domain ∨ outp.space ≠ op.range) := by simp [h1, h2]
    refine ⟨?_, rfl⟩
    simp only [Operator.apply, if_neg hno, if_pos h3]
  · intro h1 h2 h3
    have hno : ¬(inp.space ≠ op.domain ∨ outp.space ≠ op.range) := by simp [h1, h2]
    simp only [Operator.apply, if_neg hno, if_neg h3]
  · intro h
    simp only [Operator.applyAdjoint, if_pos h]
  · intro h1 h2 h3
    have hno : ¬(inp.space ≠ op.range ∨ outp.space ≠ op.domain) := by simp [h1, h2]
    simp only [Operator.applyAdjoint, if_neg hno, if_pos h3]
  · intro h1 h2 h3
    have hno : ¬(inp.space ≠ op.range ∨ outp.space ≠ op.domain) := by simp [h1, h2]
    simp only [Operator.applyAdjoint, if_neg hno, if_neg h3]

/-- C4 witness: wrong-space input gives `TypeError`, an aliased call gives
the `ValueError` kind, a well-typed non-aliased call succeeds. -/
theorem C4_apply_typecheck_alias_witness :
    Operator.apply ⟨2, 2, id, id⟩ ⟨3, 0, [1, 2, 3]⟩ ⟨2, 1, [0, 0]⟩ = .error .typeError
    ∧ (Operator.apply ⟨2, 2, id, id⟩ ⟨2, 5, [1, 2]⟩ ⟨2, 5, [1, 2]⟩ = .error .aliasingError
        ∧ PyError.isValueErrorKind .aliasingError = true)
    ∧ Operator.apply ⟨2, 2, id, id⟩ ⟨2, 0, [1, 2]⟩ ⟨2, 1, [0, 0]⟩ = .ok [1, 2] :=
  ⟨(C4_apply_typecheck_alias ⟨2, 2, id, id⟩ ⟨3, 0, [1, 2, 3]⟩ ⟨2, 1, [0, 0]⟩).1
      (Or.inl (by decide)),
    (C4_apply_typecheck_alias ⟨2, 2, id, id⟩ ⟨2, 5, [1, 2]⟩ ⟨2, 5, [1, 2]⟩).2.1 rfl rfl rfl,
    (C4_apply_typecheck_alias ⟨2, 2, id, id⟩ ⟨2, 0, [1, 2]⟩ ⟨2, 1, [0, 0]⟩).2.2.1 rfl rfl
      (by decide)⟩

/-- C5: constructing a `Sum` of two operators whose domains or ranges
differ, or a `Composition` whose first operand's domain is not the second
operand's range, raises `TypeError` at construction time; the matching
constructions succeed with the expected domain and range. -/
theorem C5_construction_typecheck :
    ∀ a b : Operator,
      (¬(a.domain = b.domain ∧ a.range = b.range) → OperatorSum a b = .error .typeError)
      ∧ (a.domain = b.domain → a.range = b.range →
          ∃ s, OperatorSum a b = .ok s ∧ s.domain = a.domain ∧ s.range = a.range)
      ∧ (a.domain ≠ b.range → OperatorComposition a b = .error .typeError)
      ∧ (a.domain = b.range →
          ∃ c, OperatorComposition a b = .ok c ∧ c.domain = b.domain ∧ c.range = a.range) := by
  intro a b
  refine ⟨?_, ?_, ?_, ?_⟩
  · intro h
    simp only [OperatorSum, if_neg h]
  · intro h1 h2
    refine ⟨⟨a.domain, a.range,
        fun x => List.zipWith (fun u v => u + v) (a.applyImpl x) (b.applyImpl x),
        fun y => List.zipWith (fun u v => u + v) (a.applyAdjointImpl y)
          (b.applyAdjointImpl y)⟩, ?_, rfl, rfl⟩
    simp only [OperatorSum, if_pos (And.intro h1 h2)]
  · intro h
    simp only [OperatorComposition, if_neg h]
  · intro h
    refine ⟨⟨b.domain, a.range, fun x => a.applyImpl (b.applyImpl x),
        fun y => b.applyAdjointImpl (a.applyAdjointImpl y)⟩, ?_, rfl, rfl⟩
    simp only [OperatorComposition, if_pos h]

/-- C5 witness: a mismatched sum and a mismatched composition both fail
with `TypeError`; a matching composition succeeds. -/
theorem C5_construction_typecheck_witness :
    OperatorSum ⟨3, 4, id, id⟩ ⟨4, 4, id, id⟩ = .error .typeError
    ∧ OperatorComposition ⟨4, 5, id, id⟩ ⟨3, 3, id, id⟩ = .error .typeError
    ∧ ∃ c, OperatorComposition ⟨4, 5, id, id⟩ ⟨3, 4, id, id⟩ = .ok c
        ∧ c.domain = 3 ∧ c.range = 5 :=
  ⟨(C5_construction_typecheck ⟨3, 4, id, id⟩ ⟨4, 4, id, id⟩).1 (by decide),
    (C5_construction_typecheck ⟨4, 5, id, id⟩ ⟨3, 3, id, id⟩).2.2.1 (by decide),
    (C5_construction_typecheck ⟨4, 5, id, id⟩ ⟨3, 4, id, id⟩).2.2.2 rfl⟩

/-- Index arithmetic for the flat buffer of a rectangular 2-D array:
entry `i * c + j` of the row-concatenation is entry `(i, j)`. -/
theorem getD_flatten_rect (data : List (List ℚ)) (c : ℕ) :
    ∀ (i j : ℕ), (∀ row ∈ data, row.length = c) → i < data.length → j < c →
      data.flatten.getD (i * c + j) 0 = (data.getD i []).getD j 0 := by
  induction data with
  | nil => intro i j _ hi _; simp at hi
  | cons row rest ih =>
    intro i j hrect hi hj
    have hrow : row.length = c := hrect row (List.mem_cons_self row rest)
    cases i with
    | zero =>
      rw [List.flatten_cons]
      simp only [Nat.zero_mul, Nat.zero_add]
      rw [List.getD_append row rest.flatten 0 j (by rw [hrow]; exact hj)]
      rfl
    | succ i =>
      have hidx : (i + 1) * c + j = row.length + (i * c + j) := by rw [hrow]; ring
      rw [List.flatten_cons, hidx,
        List.getD_append_right row rest.flatten 0 _ (Nat.le_add_right _ _)]
      simp only [Nat.add_sub_cancel_left]
      have hi2 : i < rest.length := by simpa using hi
      have hrect2 : ∀ row2 ∈ rest, row2.length = c :=
        fun r hr => hrect r (List.mem_cons_of_mem _ hr)
      rw [ih i j hrect2 hi2 hj]
      rfl

/-- The transpose of a rectangular array is rectangular with `data.length`
columns per row. -/
theorem transposeRect_rowlen (c : ℕ) (data : List (List ℚ)) :
    ∀ row ∈ transposeRect c data, row.length = data.length := by
  intro row hr
  simp only [transposeRect, List.mem_map] at hr
  obtain ⟨j, _, rfl⟩ := hr
  simp [colOf]

/-- Entry `(j, i)` of the rectangular transpose is entry `(i, j)` of the
original array. -/
theorem transposeRect_getD (c : ℕ) (data : List (List ℚ)) (i j : ℕ)
    (hj : j < c) (hi : i < data.length) :
    ((transposeRect c data).getD j []).getD i 0 = (data.getD i []).getD j 0 := by
  have h1 : (transposeRect c data).getD j [] = colOf data j := by
    unfold transposeRect
    rw [List.getD_eq_getElem _ _ (by simpa using hj)]
    simp
  rw [h1]
  unfold colOf
  rw [List.getD_eq_getElem (data.map fun row => row.getD j 0) 0 (by simpa using hi),
    List.getElem_map, List.getD_eq_getElem data [] hi]

/-- Row-major logical view of the row-major flattening is the identity on
rectangular arrays. -/
theorem logicalC_flatten (r c : ℕ) (data : List (List ℚ)) (hlen : data.length = r)
    (hrect : ∀ row ∈ data, row.length = c) :
    ((List.range r).map fun i => (List.range c).map fun j =>
        data.flatten.getD (i * c + j) 0) = data := by
  apply List.ext_getElem
  · simp [hlen]
  · intro i h1 h2
    simp only [List.getElem_map, List.getElem_range]
    have hi : i < data.length := h2
    have hrowlen : data[i].length = c := hrect data[i] (List.getElem_mem hi)
    apply List.ext_getElem
    · simp [hrowlen]
    · intro j h3 h4
      simp only [List.getElem_map, List.getElem_range]
      have hj : j < c := by simpa using h3
      rw [getD_flatten_rect data c i j hrect hi hj, List.getD_eq_getElem data _ hi,
        List.getD_eq_getElem data[i] _ h4]

/-- Row-major logical view addressed column-major over the column-major
flattening is also the identity on rectangular arrays. -/
theorem logicalF_flatten (r c : ℕ) (data : List (List ℚ)) (hlen : data.length = r)
    (hrect : ∀ row ∈ data, row.length = c) :
    ((List.range r).map fun i => (List.range c).map fun j =>
        (transposeRect c data).flatten.getD (j * r + i) 0) = data := by
  apply List.ext_getElem
  · simp [hlen]
  · intro i h1 h2
    simp only [List.getElem_map, List.getElem_range]
    have hi : i < data.length := h2
    have hrowlen : data[i].length = c := hrect data[i] (List.getElem_mem hi)
    apply List.ext_getElem
    · simp [hrowlen]
    · intro j h3 h4
      simp only [List.getElem_map, List.getElem_range]
      have hj : j < c := by simpa using h3
      have htlen : j < (transposeRect c data).length := by simp [transposeRect, hj]
      have hirow : i < r := h1.trans_eq (by simp)
      rw [getD_flatten_rect (transposeRect c data) r j i
          (fun row hr => by rw [transposeRect_rowlen c data row hr, hlen])
          htlen (by rwa [← hlen]),
        transposeRect_getD c data i j hj hi, List.getD_eq_getElem data _ hi,
        List.getD_eq_getElem data[i] _ h4]

/-- C7: round-trip through a discretized space is the identity — building
an element from a correctly shaped 2-D sample array and reading it back
with `asarray()` reproduces the data exactly, and the returned array's
contiguity flag (row-major vs column-major addressing of its buffer)
matches the space's configured ordering. -/
theorem C7_asarray_roundtrip :
    ∀ (r c : ℕ) (ord : ArrOrder) (data : List (List ℚ)),
      data.length = r → (∀ row ∈ data, row.length = c) →
      ∃ buf, DiscreteL2element (r, c) ord data = .ok buf
        ∧ (DiscreteL2asarray (r, c) ord buf).logical = data
        ∧ (DiscreteL2asarray (r, c) ord buf).layout = ord := by
  intro r c ord data hlen hrect
  cases ord with
  | C =>
    refine ⟨data.flatten, ?_, ?_, rfl⟩
    · simp only [DiscreteL2element, if_pos (And.intro hlen hrect)]
    · unfold DiscreteL2asarray NdArray.logical NdArray.entry
      exact logicalC_flatten r c data hlen hrect
  | F =>
    refine ⟨(transposeRect c data).flatten, ?_, ?_, rfl⟩
    · simp only [DiscreteL2element, if_pos (And.intro hlen hrect)]
    · unfold DiscreteL2asarray NdArray.logical NdArray.entry
      exact logicalF_flatten r c data hlen hrect

/-- C7 witness: the `(2, 2)` column-major round trip on `[[1,2],[3,4]]`. -/
theorem C7_asarray_roundtrip_witness :
    ∃ buf, DiscreteL2element (2, 2) .F [[1, 2], [3, 4]] = .ok buf
      ∧ (DiscreteL2asarray (2, 2) .F buf).logical = [[1, 2], [3, 4]]
      ∧ (DiscreteL2asarray (2, 2) .F buf).layout = .F :=
  C7_asarray_roundtrip 2 2 .F [[1, 2], [3, 4]] rfl (by decide)

/-- C2 witness: plain sequences of lengths 2 and 1 compare as `False`. -/
theorem C2_nan_none_length_witness :
    all_almost_equal (.seq (scalarList [1, 2])) (.seq (scalarList [1])) none = some false :=
  C2_nan_none_length.2.2.1 [1, 2] [1] none (by decide)
